import Mathlib

/-!
# Verification of the libzmx surface/parameter layer

A shallow embedding, in Lean 4, of the parts of `libzmx.py`,
`zemaxclient.py`, `surface.py` and `nscsurf.py` that the specification's
claims are about.  Python values that matter to the claims are modelled
with `Rat` (numbers), `String` (text) and `Option`/`Except` (absent
values / raised exceptions).  Host (Zemax DDE) traffic is modelled as
explicit call records so that statements about the order of host calls,
or about errors raised before any host call, can be made precise.
-/

namespace Libzmx

/-- A Python value travelling to the host: a number, a string or a bool.
(`Connection._str` renders these for the wire; the distinction between
int and float is irrelevant to the claims, so numbers are `Rat`.) -/
inductive PyVal
  | num (q : Rat)
  | str (s : String)
  | bool (b : Bool)
  deriving DecidableEq, Repr

/-- The Python exception classes the claims distinguish. -/
inductive PyErr
  | typeError
  | valueError
  | keyError
  | attributeError
  deriving DecidableEq, Repr

/-- Which host table a parameter lives in: `GetSurfaceData`
(`Parameter`), `GetSurfaceParameter` (`AuxParameter`) or `GetExtra`
(`ExtraParameter`). -/
inductive PTable
  | data
  | aux
  | extra
  deriving DecidableEq, Repr

/-- A reference to a source parameter of a pickup: the surface it sits
on (by surface number), its column and its solve code, as used by
`PickupFormat.set_pickup` (`pickup_expr.src_param.column`,
`pickup_expr.src_param.solve_code`). -/
structure ParamRef where
  table : PTable
  surfNum : Nat
  column : Nat
  solve_code : Int
  deriving DecidableEq, Repr

/-! ## PickupExpression (libzmx.py lines 686-743) -/

/-- Embedding of `class PickupExpression`: `(surface, parameter, offset,
scale)`.  `surface` is modelled by the surface number the Python object
would report via `get_surf_num`. -/
structure PickupExpression where
  surface : Nat
  src_param : ParamRef
  offset : Rat := 0
  scale : Rat := 1
  deriving DecidableEq, Repr

namespace PickupExpression

/-- `Parameter.linked()`: `PickupExpression(self.surface, self)` with the
default offset 0 and scale 1. -/
def linked (surface : Nat) (p : ParamRef) : PickupExpression :=
  { surface := surface, src_param := p }

/-- `PickupExpression._copy`. -/
def copy (e : PickupExpression) : PickupExpression :=
  { surface := e.surface, src_param := e.src_param, offset := e.offset, scale := e.scale }

/-- `__add__`: copy, then `x.offset += other`. -/
def add (e : PickupExpression) (c : Rat) : PickupExpression :=
  let x := e.copy
  { x with offset := x.offset + c }

/-- `__radd__` delegates to `__add__`. -/
def radd (e : PickupExpression) (c : Rat) : PickupExpression :=
  e.add c

/-- `__sub__`: copy, then `x.offset -= other`. -/
def sub (e : PickupExpression) (c : Rat) : PickupExpression :=
  let x := e.copy
  { x with offset := x.offset - c }

/-- `__rsub__`: copy, then `x.offset = other - x.offset; x.scale = -x.scale`. -/
def rsub (e : PickupExpression) (c : Rat) : PickupExpression :=
  let x := e.copy
  { x with offset := c - x.offset, scale := -x.scale }

/-- `__mul__`: copy, then `x.offset *= other; x.scale *= other`. -/
def mul (e : PickupExpression) (c : Rat) : PickupExpression :=
  let x := e.copy
  { x with offset := x.offset * c, scale := x.scale * c }

/-- `__div__`: copy, then `x.offset /= float(other); x.scale /= float(other)`.
Dividing by `0` raises `ZeroDivisionError` in Python, modelled as `none`. -/
def div (e : PickupExpression) (c : Rat) : Option PickupExpression :=
  if c = 0 then none
  else
    let x := e.copy
    some { x with offset := x.offset / c, scale := x.scale / c }

/-- `__neg__`: copy, then `x.offset = -x.offset; x.scale = -x.scale`. -/
def neg (e : PickupExpression) : PickupExpression :=
  let x := e.copy
  { x with offset := -x.offset, scale := -x.scale }

/-- `__pos__`: `return self` (the very same expression). -/
def pos (e : PickupExpression) : PickupExpression :=
  e

end PickupExpression

/-! ## SurfaceSequence index translation and item access
(libzmx.py lines 44-66) -/

/-- `SurfaceSequence._translate_id`: add the length to a negative index,
then clamp a still-negative result to zero. -/
def translate_id (len : Int) (id : Int) : Int :=
  let id := if id < 0 then id + len else id
  if id < 0 then 0 else id

/-- The host-side state `SurfaceSequence.__getitem__` touches: the
number reported by `GetSystem` (so `len(seq) = numsurfs + 1`) and the
label stored at each surface position (`GetLabel`; `0` means
unassigned). -/
structure SeqState where
  numsurfs : Nat
  labels : Int → Nat

/-- `len(seq)`: `GetSystem()[0] + 1`. -/
def SeqState.length (m : SeqState) : Int :=
  (m.numsurfs : Int) + 1

/-- `SurfaceSequence.__getitem__` up to surface construction: translate
the index, read the label, and if it is zero allocate `fresh` (the value
`random.randint(1, max_surf_id)` would produce) and store it with
`SetLabel`.  Returns the updated host state and the label (`id`) of the
returned surface handle. -/
def getitem (m : SeqState) (fresh : Nat) (i : Int) : SeqState × Nat :=
  let p := translate_id m.length i
  let l := m.labels p
  if l = 0 then
    ({ m with labels := fun q => if q = p then fresh else m.labels q }, fresh)
  else
    (m, l)

/-! ## SurfaceSequence._enforce_id_uniqueness (libzmx.py lines 97-105) -/

/-- The loop body of `_enforce_id_uniqueness`: walk the labels in
position order carrying the set `ids` of labels already seen; a label
seen before is replaced by the next fresh random value (`fresh k`,
consuming the stream), and the (possibly replaced) label is added to
`ids`. -/
def enforceAux (fresh : Nat → Nat) : List Nat → List Nat → Nat → List Nat
  | [], _, _ => []
  | l :: ls, ids, k =>
    if l ∈ ids then
      fresh k :: enforceAux fresh ls (fresh k :: ids) (k + 1)
    else
      l :: enforceAux fresh ls (l :: ids) k

/-- `SurfaceSequence._enforce_id_uniqueness`, as a function from the
initial labels (in position order) and the stream of random labels to
the final labels. -/
def enforce_id_uniqueness (labels : List Nat) (fresh : Nat → Nat) : List Nat :=
  enforceAux fresh labels [] 0

/-! ## CommentParameter (libzmx.py lines 441-487)

`set_comment_and_tag` encodes via `tag_format = "%s #%s#"` and refuses
strings longer than `max_len = 32`; `get_comment_and_tag` decodes via
the Python regular expression `tag_patt = r"(.*?)\s*(?:#([^#]+)#)?$"`
applied with `re.match`.  The decoder below implements exactly what that
anchored lazy match computes on a given subject string: the optional
`#tag#` group must end at `$` (end of string, or just before one final
newline), the tag is the maximal nonempty run of non-`#` characters
before that, the whitespace `\s*` absorbs the gap, and the lazy group 1
is what is left, which must contain no newline (`.` does not match a
newline); if no overall match exists, `.groups()` on `None` raises
(modelled as `none`). -/

/-- Python `\s` for an ASCII subject string. -/
def pyIsSpace (c : Char) : Bool :=
  c = ' ' || c = '\t' || c = '\n' || c = '\r' || c = '\x0b' || c = '\x0c'

/-- Remove the maximal whitespace suffix (Python `str.rstrip()` and the
effect of the greedy `\s*` on the lazy group 1). -/
def rstripList (s : List Char) : List Char :=
  (s.reverse.dropWhile pyIsSpace).reverse

/-- `str.rstrip()` on strings. -/
def pyRstrip (s : String) : String :=
  String.mk (rstripList s.data)

/-- Recognise a trailing `#tag#` block on the reversed subject: the last
character is `#`, the nonempty tag is everything up to the previous `#`.
Returns (prefix before the block, tag), both in normal order. -/
def tryTagRev : List Char → Option (List Char × List Char)
  | [] => none
  | ch :: rest =>
    if ch = '#' then
      let x := rest.takeWhile (fun c => c ≠ '#')
      if x.isEmpty then none
      else
        match rest.drop x.length with
        | c2 :: preRev => if c2 = '#' then some (preRev.reverse, x.reverse) else none
        | [] => none
    else none

/-- Trailing `#tag#` block of a subject string, if any. -/
def tryTag (s : List Char) : Option (List Char × List Char) :=
  tryTagRev s.reverse

/-- `tag_patt.match(value).groups()`: the comment/tag split the regular
expression produces, or `none` when the pattern does not match at all
(in which case `get_comment_and_tag` raises `AttributeError`). -/
def pyTagMatch (s : String) : Option (String × Option String) :=
  let cs := s.data
  let cand :=
    match tryTag cs with
    | some r => some r
    | none =>
      if cs.getLast? = some '\n' then tryTag cs.dropLast else none
  match cand with
  | some (pre, x) =>
    let c := rstripList pre
    if '\n' ∈ c then none else some (String.mk c, some (String.mk x))
  | none =>
    let c := rstripList cs
    if '\n' ∈ c then none else some (String.mk c, none)

/-- `CommentParameter.tag_format % (comment.rstrip(), tag)`. -/
def tag_format (comment tag : String) : String :=
  comment ++ " #" ++ tag ++ "#"

/-- The `value` computed at the top of `set_comment_and_tag`:
`tag_format % (comment.rstrip(), tag)` for a truthy tag, the bare
comment otherwise (`None` and `""` are both falsy). -/
def comment_tag_value (comment : String) (tag : Option String) : String :=
  match tag with
  | some t => if t = "" then comment else tag_format (pyRstrip comment) t
  | none => comment

/-- `CommentParameter.set_comment_and_tag`: encode, and raise
`ValueError` before the host store whenever the encoding is longer than
`max_len = 32`; on success the `.ok` payload is the exact string handed
to `Parameter._client_set_value`. -/
def set_comment_and_tag (comment : String) (tag : Option String) : Except PyErr String :=
  let value := comment_tag_value comment tag
  if 32 < value.length then .error .valueError else .ok value

/-- `CommentParameter.get_comment_and_tag` applied to the raw comment
text fetched from the host (`none` models the `AttributeError` from a
failed regex match). -/
def get_comment_and_tag (raw : String) : Option (String × Option String) :=
  pyTagMatch raw

/-! ## PickupFormat.set_pickup (libzmx.py lines 218-265) -/

/-- `class PickupFormat`: the pickup policy of a parameter. -/
structure PickupFormat where
  solve_code : Int
  has_scale : Bool
  has_offset : Bool
  has_col_ref : Bool := false
  deriving DecidableEq, Repr

/-- The single host call `PickupFormat.set_pickup` ends with:
`SetSolve(target surface, target solve code, policy solve code, source
surface, *modifiers)`. -/
structure SolveCall where
  surf : Nat
  code : Option Int
  solveType : Int
  srcSurf : Nat
  modifiers : List Rat
  deriving DecidableEq, Repr

/-- `class Parameter` (and its subclasses): the per-field data `__init__`
stores, with the surface object replaced by its surface number and the
element type reduced to the bool/no-bool distinction that matters for
coercion. -/
structure Parameter where
  surfNum : Nat
  column : Nat
  isBool : Bool := false
  solve_code : Option Int := none
  pickup_conf : Option PickupFormat := none
  fix_code : Option Int := none
  can_optimise : Bool := false
  reverse_pickup_terms : Bool := false
  table : PTable := .data
  deriving DecidableEq, Repr

/-- `PickupFormat.set_pickup(surfp, pickup_expr)`: build the modifier
list (scale, then offset, each gated by the policy with a `TypeError`
for a non-identity modifier the policy cannot express), reverse it for
"parameter"-table fields, append the source solve code plus one for
cross-column policies (`TypeError` if the policy forbids cross-column
and the columns differ), then and only then issue `SetSolve`. -/
def set_pickup (conf : PickupFormat) (surfp : Parameter) (e : PickupExpression) :
    Except PyErr SolveCall := do
  let mods : List Rat := []
  let mods ←
    if conf.has_scale then pure (mods ++ [e.scale])
    else if e.scale ≠ 1 then throw PyErr.typeError
    else pure mods
  let mods ←
    if conf.has_offset then pure (mods ++ [e.offset])
    else if e.offset ≠ 0 then throw PyErr.typeError
    else pure mods
  let mods := if surfp.reverse_pickup_terms then mods.reverse else mods
  let col := e.src_param.column
  let mods ←
    if conf.has_col_ref then pure (mods ++ [((e.src_param.solve_code : Rat) + 1)])
    else if surfp.column ≠ col then throw PyErr.typeError
    else pure mods
  pure { surf := surfp.surfNum, code := surfp.solve_code, solveType := conf.solve_code,
         srcSurf := e.surface, modifiers := mods }

/-! ## Parameter.set_value / link_value_to (libzmx.py lines 296-350) -/

/-- One host call issued by the surface/parameter layer. -/
inductive HostCall
  | insertSurface (surfno : Nat)
  | setLabel (surfno : Nat) (id : Nat)
  | setSolve (surf : Nat) (code : Option Int) (args : List Rat)
  | store (table : PTable) (surf : Nat) (column : Nat) (v : PyVal)
  deriving DecidableEq, Repr

/-- Render a `SolveCall` as the wire-level `SetSolve` host call. -/
def SolveCall.toHost (c : SolveCall) : HostCall :=
  .setSolve c.surf c.code ((c.solveType : Rat) :: (c.srcSurf : Rat) :: c.modifiers)

/-- The argument of `Parameter.set_value`: a literal value or a
`PickupExpression`. -/
inductive SetValueArg
  | lit (v : PyVal)
  | pickup (e : PickupExpression)
  deriving DecidableEq, Repr

/-- `if self._type is bool : value = int(value)` before transmission. -/
def Parameter.coerce (p : Parameter) (v : PyVal) : PyVal :=
  if p.isBool then
    match v with
    | .bool b => .num (if b then 1 else 0)
    | x => x
  else v

/-- The host calls of `Parameter.fix()` as invoked from `set_value`
(`SetSolve(n, self.solve_code, self.fix_code)`), when the parameter has
a `fix_code`. -/
def Parameter.fixCalls (p : Parameter) : List HostCall :=
  match p.fix_code with
  | some fc => [.setSolve p.surfNum p.solve_code [(fc : Rat)]]
  | none => []

/-- `Parameter.set_value`: a `PickupExpression` is delegated to
`link_value_to`, which is `self.pickup_conf.set_pickup(self, …)` — an
`AttributeError` when `pickup_conf` is `None`; a literal value first
fixes the solve when a `fix_code` is configured, then issues the
field-appropriate store. -/
def Parameter.set_value (p : Parameter) (v : SetValueArg) : Except PyErr (List HostCall) :=
  match v with
  | .pickup e =>
    match p.pickup_conf with
    | none => .error .attributeError
    | some conf => (set_pickup conf p e).map (fun c => [c.toHost])
  | .lit v =>
    .ok (p.fixCalls ++ [.store p.table p.surfNum p.column (p.coerce v)])

/-- The comment field: `Parameter.__init__(self, surface, 1, str)` — no
solve code, no pickup policy, no fix code. -/
def commentParameter (n : Nat) : Parameter :=
  { surfNum := n, column := 1 }

/-- The type field: `Property(Parameter, 0, str)`. -/
def typeParameter (n : Nat) : Parameter :=
  { surfNum := n, column := 0 }

/-- The coating field: `Property(Parameter, 7, str)`. -/
def coatingParameter (n : Nat) : Parameter :=
  { surfNum := n, column := 7 }

/-- The thermal-expansivity field: `Property(Parameter, 8, float, True)`
(the fourth positional argument lands on `solve_code`; no pickup
policy). -/
def thermalExpansivityParameter (n : Nat) : Parameter :=
  { surfNum := n, column := 8, solve_code := some 1 }

/-- Python truthiness of the tag recovered by `get_comment_and_tag`
(`None` and the empty string are falsy). -/
def tagTruthy : Option String → Bool
  | some t => t != ""
  | none => false

/-- `CommentParameter.set_value` (libzmx.py lines 470-472) — the
override that replaces `Parameter.set_value` on the comment field
(`value = property(get_value, set_value)`, line 486).  It first
recovers the current tag with `get_comment_and_tag()` — host *reads*
(`FindLabel`, `GetSurfaceData`) only, raising `AttributeError` if the
regex match fails — and then re-encodes with
`set_comment_and_tag(comment, tag)`, taking `raw` for the current
comment text on the host.  A non-string `comment` argument — in
particular a `PickupExpression` — is never dispatched on a pickup
policy: with a truthy tag, `comment.rstrip()` raises `AttributeError`;
with no tag, `n = len(value)` raises `TypeError`.  On success the `.ok`
payload is the raw string handed to `_client_set_value`; every error
precedes that store. -/
def comment_set_value (raw : String) (v : SetValueArg) : Except PyErr String :=
  match pyTagMatch raw with
  | none => .error .attributeError
  | some (_, tag) =>
    match v with
    | .lit (.str c) => set_comment_and_tag c tag
    | _ => if tagTruthy tag then .error .attributeError else .error .typeError

/-! ## UnknownSurface creation via SurfaceSequence.insert_new
(libzmx.py lines 78-92 and 517-536) -/

/-- A `Parameter` minus its surface: what a `Property` on a surface
class describes before it is bound to a concrete surface. -/
structure ParamSpec where
  column : Nat
  isBool : Bool := false
  solve_code : Option Int := none
  pickup_conf : Option PickupFormat := none
  fix_code : Option Int := none
  table : PTable := .data
  deriving DecidableEq, Repr

/-- Bind a `ParamSpec` to the surface at number `n`. -/
def ParamSpec.toParam (s : ParamSpec) (n : Nat) : Parameter :=
  { surfNum := n, column := s.column, isBool := s.isBool, solve_code := s.solve_code,
    pickup_conf := s.pickup_conf, fix_code := s.fix_code, table := s.table }

/-- The host calls of one keyword-field assignment `p.value = value`
during `UnknownSurface.__init__` (a literal assignment never raises). -/
def kwargCalls (n : Nat) (kw : ParamSpec × PyVal) : List HostCall :=
  (kw.1.toParam n).fixCalls ++
    [.store kw.1.table n kw.1.column ((kw.1.toParam n).coerce kw.2)]

/-- `factory.create(conn, id, **kwargs)` for a surface class whose
`surface_type` is `ty`, as invoked on the surface at number `n`:
`cls(*args, **kwargs)` runs `UnknownSurface.__init__`, which assigns
every caller-supplied keyword field, and only then does `create` run
`surf.type = cls.surface_type`. -/
def create_trace (n : Nat) (ty : String) (kwargs : List (ParamSpec × PyVal)) : List HostCall :=
  (kwargs.flatMap (kwargCalls n)) ++
    ((typeParameter n).fixCalls ++
      [.store .data n 0 ((typeParameter n).coerce (.str ty))])

/-- `SurfaceSequence.insert_new` after index translation (`surfno ≥ 1`):
`InsertSurface`, then `SetLabel` with the fresh random label, then the
creation protocol. -/
def insert_new_trace (surfno id : Nat) (ty : String)
    (kwargs : List (ParamSpec × PyVal)) : List HostCall :=
  .insertSurface surfno :: .setLabel surfno id :: create_trace surfno ty kwargs

/-- Does every host call satisfying `isField` come at or after the first
call satisfying `isType`?  (Equivalently: the prefix strictly before the
first type-marker call contains no field call.) -/
def typeStoreFirst (t : List HostCall) (isType isField : HostCall → Bool) : Bool :=
  (t.takeWhile (fun c => !isType c)).all (fun c => !isField c)

/-- The host call that assigns the variant's type marker on surface `n`. -/
def isTypeMarkerStore (n : Nat) (ty : String) (c : HostCall) : Bool :=
  c = .store .data n 0 (.str ty)

/-- The host calls that set a caller-supplied field value on surface `n`. -/
def isKwargStore (kwargs : List (ParamSpec × PyVal)) (n : Nat) (c : HostCall) : Bool :=
  kwargs.any (fun kw => c = .store kw.1.table n kw.1.column ((kw.1.toParam n).coerce kw.2))

/-! ## UnknownSurface.fix_variables (libzmx.py lines 571-584),
Connection.GetSolve (zemaxclient.py lines 300-303)

`Connection.GetSolve` returns the raw, unsplit response string, whose
text begins with the decimal solve type; `fix_variables` then evaluates
`int(vals[0])` — `vals[0]` is the first *character* of that string, so
the test `int(vals[0])==1` holds exactly when the leading decimal digit
of the solve type is 1. -/

/-- Leading decimal digit, with explicit fuel (`fuel = n` suffices since
the argument strictly decreases). -/
def firstDigitAux : Nat → Nat → Nat
  | 0, n => n
  | fuel + 1, n => if n < 10 then n else firstDigitAux fuel (n / 10)

/-- Leading decimal digit of a natural number (`int(response[0])` for
the decimal rendering of the solve type that starts the response). -/
def firstDigit (n : Nat) : Nat :=
  firstDigitAux n n

/-- The scan of `fix_variables` over the given solve codes: the host
solve state maps each code to its current solve type; a code whose
response passes the `int(vals[0])==1` test is set to 0 (fixed) with
`SetSolve(n, i, 0)` and appended to the result. -/
def fixLoop : (Nat → Nat) → List Nat → (Nat → Nat) × List Nat
  | st, [] => (st, [])
  | st, i :: rest =>
    if firstDigit (st i) = 1 then
      let st1 := fun j => if j = i then 0 else st j
      let r := fixLoop st1 rest
      (r.1, i :: r.2)
    else fixLoop st rest

/-- `UnknownSurface.fix_variables`: scan solve codes 0–16 and return the
updated solve state together with the list of codes that were "fixed". -/
def fix_variables (st : Nat → Nat) : (Nat → Nat) × List Nat :=
  fixLoop st (List.range 17)

/-! ## return_to_coordinate_frame (libzmx.py lines 638-683) -/

/-- The fields of one surface in the range to be undone, as read back by
the loop body (`isinstance(to_undo, CoordinateBreak)`, `.thickness.value`,
the five transform components, `.rotate_before_offset.value`,
`.comment.value`). -/
structure SurfDesc where
  isCB : Bool
  thickness : Rat := 0
  offset_x : Rat := 0
  offset_y : Rat := 0
  rotate_x : Rat := 0
  rotate_y : Rat := 0
  rotate_z : Rat := 0
  rotate_before_offset : Bool := false
  comment : String := ""
  deriving DecidableEq, Repr

/-- The thickness parameter of the surface at number `p`:
`ThicknessParameter` has column 3 and solve code 1. -/
def thicknessRef (p : Nat) : ParamRef :=
  { table := .data, surfNum := p, column := 3, solve_code := 1 }

/-- The coordinate-break transform parameters are `AuxParameter`s:
column `col` and solve code `col + 4`. -/
def auxRef (p col : Nat) : ParamRef :=
  { table := .aux, surfNum := p, column := col, solve_code := (col : Int) + 4 }

/-- The assignments `return_to_coordinate_frame` makes on one inserted
coordinate break (each field `none` when the loop body does not touch
it). -/
structure InsertedCB where
  thickness : Option PickupExpression := none
  offset_x : Option PickupExpression := none
  offset_y : Option PickupExpression := none
  rotate_x : Option PickupExpression := none
  rotate_y : Option PickupExpression := none
  rotate_z : Option PickupExpression := none
  rotate_before_offset : Option Bool := none
  comment : String := ""
  deriving DecidableEq, Repr

/-- `"UNDO …" + (to_undo.comment.value or str(to_undo.get_surf_num()))`. -/
def undoComment (pre : String) (s : SurfDesc) (sn1 : Nat) : String :=
  pre ++ (if s.comment = "" then toString sn1 else s.comment)

/-- The body of the `for sn1 in surfaces_to_undo` loop: the inserted
surfaces synthesized for the original surface `s` at position `sn1`. -/
def stepsForSurface (s : SurfDesc) (sn1 : Nat) (includeNull : Bool) : List InsertedCB :=
  if s.isCB then
    (if ¬s.thickness = 0 ∨ includeNull = true then
      [{ thickness := some ((PickupExpression.linked sn1 (thicknessRef sn1)).neg),
         comment := undoComment "UNDO thickness " s sn1 }]
    else []) ++
    (if (¬s.offset_x = 0 ∨ ¬s.offset_y = 0 ∨ ¬s.rotate_x = 0 ∨ ¬s.rotate_y = 0 ∨
          ¬s.rotate_z = 0) ∨ includeNull = true then
      [{ offset_x := some ((PickupExpression.linked sn1 (auxRef sn1 1)).neg),
         offset_y := some ((PickupExpression.linked sn1 (auxRef sn1 2)).neg),
         rotate_x := some ((PickupExpression.linked sn1 (auxRef sn1 3)).neg),
         rotate_y := some ((PickupExpression.linked sn1 (auxRef sn1 4)).neg),
         rotate_z := some ((PickupExpression.linked sn1 (auxRef sn1 5)).neg),
         rotate_before_offset := some (!s.rotate_before_offset),
         comment := undoComment "UNDO " s sn1 }]
    else [])
  else
    if ¬s.thickness = 0 ∨ includeNull = true then
      [{ rotate_before_offset := some false,
         thickness := some ((PickupExpression.linked sn1 (thicknessRef sn1)).neg),
         comment := undoComment "UNDO " s sn1 }]
    else []

/-- The loop `for sn1 in range(last_return_surf, last_return_surf-nsteps, -1)`,
by the number `n` of positions still to visit. -/
def rtcfLoop (seq : Nat → SurfDesc) (includeNull : Bool) : Nat → Nat → List InsertedCB
  | _, 0 => []
  | sn1, n + 1 =>
    stepsForSurface (seq sn1) sn1 includeNull ++ rtcfLoop seq includeNull (sn1 - 1) n

/-- `return_to_coordinate_frame(seq, first, last, …)` (with the default
factory, which inserts after the range so original positions are
stable): the list of synthesized surfaces in insertion order, paired
with the final `inserted.get_surf_num()` result — the last synthesized
surface (`none` models the `NameError` when nothing was synthesized). -/
def return_to_coordinate_frame (seq : Nat → SurfDesc) (first last : Nat)
    (includeNull : Bool) : List InsertedCB × Option InsertedCB :=
  let steps := rtcfLoop seq includeNull last (last + 1 - first)
  (steps, steps.getLast?)

/-! ## The surface variant registry (libzmx.py lines 13-29, surface.py,
nscsurf.py)

`class surface_type(type)` registers every surface class with a truthy
`surface_type` string in the `surface_types` dict at class-creation
time, i.e. when the defining module is loaded.  `surface.py` begins with
`from libzmx import UnknownSurface, FiniteSurface, Standard,
CoordinateBreak`; loading it therefore succeeds only if every imported
name is defined at the top level of `libzmx.py`. -/

/-- The names defined (or imported) at the top level of `libzmx.py`. -/
def libzmx_module_names : List String :=
  ["random", "re", "np", "Connection", "Untraceable", "count", "namedtuple",
   "surface_types", "surface_params", "surface_type", "SurfaceSequence",
   "NamedElements", "SystemConfig", "ModelConfigs", "PickupFormat",
   "Parameter", "Property", "AuxParameter", "ExtraParameter",
   "CurvatureParameter", "ThicknessParameter", "SemiDiameterParameter",
   "CommentParameter", "BaseSurface", "RayNode", "UnknownSurface",
   "Standard", "CoordinateBreak", "return_to_coordinate_frame",
   "PickupExpression", "make_singlet"]

/-- The names `surface.py` imports from `libzmx` on its first lines. -/
def surface_module_imports : List String :=
  ["UnknownSurface", "FiniteSurface", "Standard", "CoordinateBreak",
   "Property", "Parameter", "AuxParameter", "ExtraParameter",
   "PickupFormat", "SemiDiameterParameter"]

/-- Loading `surface.py`: if every imported name resolves, the module's
class definitions run and register their `surface_type` codes; otherwise
the import raises and nothing in the module is registered. -/
def load_surface_module : Except String (List (String × String)) :=
  if surface_module_imports.all (libzmx_module_names.contains ·) then
    .ok [("TOROIDAL", "Toroidal"), ("DGRATING", "Grating"),
         ("GEN_FRES", "GeneralisedFresnel"), ("RETROREF", "RetroReflect")]
  else
    .error "ImportError: cannot import name FiniteSurface"

/-- The code-string-to-variant table `surface_types` after loading
`libzmx` (registers `STANDARD` and `COORDBRK`), attempting to load
`surface` and loading `nscsurf` (registers `NONSEQCO`). -/
def surface_types_table : List (String × String) :=
  [("STANDARD", "Standard"), ("COORDBRK", "CoordinateBreak")] ++
    (match load_surface_module with
     | .ok regs => regs
     | .error _ => []) ++
    [("NONSEQCO", "NonSequentialComponent")]

/-! ## Description of the undo chain in the claim's vocabulary -/

/-- The steps the (amended) claim describes for one visited surface:
for a coordinate-transform surface, an undo-thickness step when its
thickness is nonzero or null transforms are included, followed by an
undo-rotation/offset step — its five components negated pickup-links
(scale −1, offset 0) to the original's transform parameters and its
rotate-before-offset flag the logical inverse of the original's — when
any of the five components is nonzero or null transforms are included;
for a non-transform surface, a single undo-thickness step (when its
thickness is nonzero or null transforms are included). -/
def describedSteps (s : SurfDesc) (p : Nat) (inc : Bool) : List InsertedCB :=
  if s.isCB then
    (if ¬s.thickness = 0 ∨ inc = true then
      [{ thickness := some { surface := p, src_param := thicknessRef p, offset := 0, scale := -1 },
         comment := undoComment "UNDO thickness " s p }]
    else []) ++
    (if (¬s.offset_x = 0 ∨ ¬s.offset_y = 0 ∨ ¬s.rotate_x = 0 ∨ ¬s.rotate_y = 0 ∨
          ¬s.rotate_z = 0) ∨ inc = true then
      [{ offset_x := some { surface := p, src_param := auxRef p 1, offset := 0, scale := -1 },
         offset_y := some { surface := p, src_param := auxRef p 2, offset := 0, scale := -1 },
         rotate_x := some { surface := p, src_param := auxRef p 3, offset := 0, scale := -1 },
         rotate_y := some { surface := p, src_param := auxRef p 4, offset := 0, scale := -1 },
         rotate_z := some { surface := p, src_param := auxRef p 5, offset := 0, scale := -1 },
         rotate_before_offset := some (!s.rotate_before_offset),
         comment := undoComment "UNDO " s p }]
    else [])
  else
    if ¬s.thickness = 0 ∨ inc = true then
      [{ rotate_before_offset := some false,
         thickness := some { surface := p, src_param := thicknessRef p, offset := 0, scale := -1 },
         comment := undoComment "UNDO " s p }]
    else []

/-- The whole undo chain as the (amended) claim describes it: the
positions `first, …, last` visited in reverse order, each contributing
its `describedSteps`. -/
def undoChainDescribed (seq : Nat → SurfDesc) (first last : Nat) (inc : Bool) :
    List InsertedCB :=
  ((List.range' first (last + 1 - first)).reverse).flatMap
    (fun p => describedSteps (seq p) p inc)

/-! ## Concrete example inputs used by counterexamples and witnesses -/

/-- A two-surface range: position 2 a coordinate break with thickness 5
and all five transform components zero, position 1 a plain surface with
zero thickness. -/
def undoCexSeq : Nat → SurfDesc :=
  fun p => if p = 2 then { isCB := true, thickness := 5 } else { isCB := false }

/-- The solve state `make_singlet` itself produces on the back surface:
`back.curvature.set_fnumber(10)` installs an f/# solve — solve type 11 —
on solve code 0 (curvature); no field is an optimization variable. -/
def fnumberSolveState : Nat → Nat :=
  fun i => if i = 0 then 11 else 0

/-- The keyword argument `num_poly_terms=11` of the test
`SetExtraAttributes` (`model.insert_new(1, surface.Toroidal,
num_poly_terms=11)`): an `ExtraParameter` at column 1, so solve code
`1 + 1000` and fix code 0. -/
def numPolyTermsKwarg : ParamSpec × PyVal :=
  ({ column := 1, solve_code := some 1001,
     pickup_conf := some { solve_code := 2, has_scale := true, has_offset := false },
     fix_code := some 0, table := .extra }, .num 11)

/-! # Theorems -/

/-! ## C7: negative-index access -/

lemma translate_id_of_nonneg (len i : Int) (h0 : 0 ≤ i) : translate_id len i = i := by
  simp only [translate_id]
  split_ifs <;> omega

lemma translate_id_sub_len (len i : Int) (h0 : 0 ≤ i) (h1 : i < len) :
    translate_id len (i - len) = i := by
  simp only [translate_id]
  split_ifs <;> omega

lemma getitem_numsurfs (m : SeqState) (f : Nat) (i : Int) :
    (getitem m f i).1.numsurfs = m.numsurfs := by
  simp only [getitem]
  split_ifs <;> rfl

/-- C7: for every valid index `i ∈ [0, length)`, `seq[i]` and
`seq[i - length]` denote the same surface: the index translation maps
both to the same host position, and the two successive `__getitem__`
calls return handles with the same label (the first call assigns a
fresh nonzero label if the position had none, which the second call
then reads back). -/
theorem getitem_negative_index_same_surface (m : SeqState) (i : Int) (f₁ f₂ : Nat)
    (h0 : 0 ≤ i) (h1 : i < m.length) (hf : 1 ≤ f₁) :
    translate_id m.length i = translate_id m.length (i - m.length) ∧
    (getitem m f₁ i).2 = (getitem (getitem m f₁ i).1 f₂ (i - m.length)).2 := by
  have ht1 : translate_id m.length i = i := translate_id_of_nonneg _ _ h0
  have ht2 : translate_id m.length (i - m.length) = i := translate_id_sub_len _ _ h0 h1
  refine ⟨ht1.trans ht2.symm, ?_⟩
  by_cases hm : m.labels i = 0
  · have e1 : getitem m f₁ i =
        ({ m with labels := fun q => if q = i then f₁ else m.labels q }, f₁) := by
      simp [getitem, ht1, hm]
    have hf1 : ¬ (f₁ = 0) := by omega
    rw [e1]
    have hlen' : ({ m with labels := fun q => if q = i then f₁ else m.labels q } :
        SeqState).length = m.length := rfl
    simp [getitem, hlen', ht2, hf1]
  · have e1 : getitem m f₁ i = (m, m.labels i) := by
      simp [getitem, ht1, hm]
    rw [e1]
    simp [getitem, ht2, hm]

/-- Witness for C7 at a concrete model: two surfaces plus sentinels,
no labels assigned yet, `i = 1`, fresh labels 5 and 9. -/
theorem getitem_negative_index_same_surface_witness :
    translate_id (SeqState.length ⟨2, fun _ => 0⟩) 1
        = translate_id (SeqState.length ⟨2, fun _ => 0⟩) (1 - SeqState.length ⟨2, fun _ => 0⟩) ∧
    (getitem ⟨2, fun _ => 0⟩ 5 1).2
        = (getitem (getitem ⟨2, fun _ => 0⟩ 5 1).1 9 (1 - SeqState.length ⟨2, fun _ => 0⟩)).2 :=
  getitem_negative_index_same_surface ⟨2, fun _ => 0⟩ 1 5 9 (by norm_num)
    (by norm_num [SeqState.length]) (by norm_num)

/-! ## C4: label uniqueness after `_enforce_id_uniqueness` -/

lemma enforceAux_nodup (fresh : Nat → Nat)
    (hinj : ∀ i j, i ≠ j → fresh i ≠ fresh j) :
    ∀ (ls ids : List Nat) (k : Nat),
      (∀ i, k ≤ i → fresh i ∉ ids ∧ fresh i ∉ ls) →
      (enforceAux fresh ls ids k).Nodup ∧
        ∀ x ∈ enforceAux fresh ls ids k, x ∉ ids := by
  intro ls
  induction ls with
  | nil => intro ids k _; simp [enforceAux]
  | cons l ls ih =>
    intro ids k h
    by_cases hl : l ∈ ids
    · have hrec := ih (fresh k :: ids) (k + 1) (by
        intro i hi
        have hik : i ≠ k := by omega
        have hh := h i (by omega)
        refine ⟨?_, ?_⟩
        · simp only [List.mem_cons, not_or]
          exact ⟨hinj i k hik, hh.1⟩
        · intro hmem
          exact hh.2 (List.mem_cons_of_mem _ hmem))
      simp only [enforceAux, if_pos hl]
      constructor
      · refine List.nodup_cons.mpr ⟨?_, hrec.1⟩
        intro hmem
        exact (hrec.2 _ hmem) (List.mem_cons_self _ _)
      · intro x hx
        rcases List.mem_cons.mp hx with hx | hx
        · subst hx
          exact (h k le_rfl).1
        · intro hmem
          exact (hrec.2 _ hx) (List.mem_cons_of_mem _ hmem)
    · have hrec := ih (l :: ids) k (by
        intro i hi
        have hh := h i hi
        refine ⟨?_, ?_⟩
        · simp only [List.mem_cons, not_or]
          refine ⟨?_, hh.1⟩
          intro heq
          exact hh.2 (heq ▸ List.mem_cons_self _ _)
        · intro hmem
          exact hh.2 (List.mem_cons_of_mem _ hmem))
      simp only [enforceAux, if_neg hl]
      constructor
      · refine List.nodup_cons.mpr ⟨?_, hrec.1⟩
        intro hmem
        exact (hrec.2 _ hmem) (List.mem_cons_self _ _)
      · intro x hx
        rcases List.mem_cons.mp hx with hx | hx
        · subst hx; exact hl
        · intro hmem
          exact (hrec.2 _ hx) (List.mem_cons_of_mem _ hmem)

/-- C4 (amended): the uniqueness scan leaves the labels pairwise
distinct provided the freshly allocated labels are pairwise distinct and
avoid every initially present label — the guarantee random allocation is
relied on to deliver.  (As literally stated, over *every* choice of
random labels, the claim fails: see the counterexample.) -/
theorem enforce_id_uniqueness_nodup (labels : List Nat) (fresh : Nat → Nat)
    (hinj : ∀ i j, i ≠ j → fresh i ≠ fresh j)
    (havoid : ∀ i, fresh i ∉ labels) :
    (enforce_id_uniqueness labels fresh).Nodup :=
  (enforceAux_nodup fresh hinj labels [] 0
    (fun i _ => ⟨List.not_mem_nil _, havoid i⟩)).1

/-- Witness for (amended) C4: duplicated input labels `[1, 1, 2]`,
fresh labels `3, 4, 5, …`. -/
theorem enforce_id_uniqueness_nodup_witness :
    (enforce_id_uniqueness [1, 1, 2] (fun k => k + 3)).Nodup :=
  enforce_id_uniqueness_nodup [1, 1, 2] (fun k => k + 3)
    (by intro i j hij; simpa using hij)
    (by intro i; simp)

/-- Counterexample to C4 as stated: with initial labels `[1, 1]` and a
random stream that (legitimately, with probability `(2^31-1)⁻¹`) yields
the label `1` again, the scan terminates with the duplicate intact. -/
theorem enforce_id_uniqueness_counterexample :
    ¬ (enforce_id_uniqueness [1, 1] (fun _ => 1)).Nodup := by
  decide

/-! ## C9: PickupExpression arithmetic -/

/-- C9: the arithmetic on `PickupExpression` is pure constant-folding:
`+`/`-` adjust only the offset, `*`/`/` scale both the scale and the
offset, negation negates both, unary plus is the identity; every
operation leaves the operand's surface and source parameter in the
result and (being `_copy`-then-update) never mutates the operand, whose
own fields are exactly those read on the right-hand sides below.
(Python raises `ZeroDivisionError` on division by zero, hence `c ≠ 0`
for the division clause.) -/
theorem pickup_expression_arithmetic (e : PickupExpression) (c : Rat) (hc : c ≠ 0) :
    e.add c = { e with offset := e.offset + c } ∧
    e.radd c = { e with offset := e.offset + c } ∧
    e.sub c = { e with offset := e.offset - c } ∧
    e.mul c = { e with offset := e.offset * c, scale := e.scale * c } ∧
    e.div c = some { e with offset := e.offset / c, scale := e.scale / c } ∧
    e.neg = { e with offset := -e.offset, scale := -e.scale } ∧
    e.pos = e := by
  refine ⟨rfl, rfl, rfl, rfl, ?_, rfl, rfl⟩
  simp [PickupExpression.div, PickupExpression.copy, hc]

/-- Witness for C9 at a concrete expression and constant. -/
theorem pickup_expression_arithmetic_witness :
    PickupExpression.add ⟨4, thicknessRef 4, 2, 3⟩ 5 = ⟨4, thicknessRef 4, 7, 3⟩ ∧
    PickupExpression.div ⟨4, thicknessRef 4, 2, 3⟩ 2 = some ⟨4, thicknessRef 4, 1, 3 / 2⟩ := by
  have h := pickup_expression_arithmetic ⟨4, thicknessRef 4, 2, 3⟩ 2 (by norm_num)
  have h5 := pickup_expression_arithmetic ⟨4, thicknessRef 4, 2, 3⟩ 5 (by norm_num)
  refine ⟨?_, ?_⟩
  · rw [h5.1]
    norm_num
  · rw [h.2.2.2.2.1]
    norm_num

/-! ## C3: pickup-composition policy enforcement -/

/-- C3: installing a pickup raises `TypeError` — with no `SetSolve` (or
any other) host call issued, since in `set_pickup` every `raise`
precedes the `SetSolve` line — exactly when the policy forbids scaling
and `scale ≠ 1`, or forbids offsetting and `offset ≠ 0`, or forbids
cross-column references and the source column differs from the
target's; otherwise the single `SetSolve` call carries the modifier
list containing the scale iff the policy allows scaling and the offset
iff it allows offsetting (reversed for "parameter"-table fields, with
the source solve code + 1 appended for cross-column policies). -/
theorem set_pickup_policy_enforcement (conf : PickupFormat) (surfp : Parameter)
    (e : PickupExpression) :
    (set_pickup conf surfp e = .error .typeError ↔
      (conf.has_scale = false ∧ e.scale ≠ 1) ∨
      (conf.has_offset = false ∧ e.offset ≠ 0) ∨
      (conf.has_col_ref = false ∧ surfp.column ≠ e.src_param.column)) ∧
    ∀ call, set_pickup conf surfp e = .ok call →
      call = { surf := surfp.surfNum, code := surfp.solve_code,
               solveType := conf.solve_code, srcSurf := e.surface,
               modifiers :=
                 (if surfp.reverse_pickup_terms then
                    ((if conf.has_scale then [e.scale] else []) ++
                      (if conf.has_offset then [e.offset] else [])).reverse
                  else
                    (if conf.has_scale then [e.scale] else []) ++
                      (if conf.has_offset then [e.offset] else [])) ++
                 (if conf.has_col_ref then [(e.src_param.solve_code : Rat) + 1] else []) } := by
  cases hs : conf.has_scale <;> cases ho : conf.has_offset <;> cases hcr : conf.has_col_ref <;>
    simp only [set_pickup, hs, ho, hcr, Bool.false_eq_true, if_false, if_true, bind, pure,
      Except.bind, Except.pure] <;>
    split_ifs <;>
    simp_all [SolveCall.mk.injEq]

/-- Witness for C3: a scale-only policy (curvature's
`PickupFormat(4, True, False)`) rejects an offset pickup with
`TypeError`, while thickness's scale-and-offset policy
(`PickupFormat(5, True, True)`) accepts the same expression. -/
theorem set_pickup_policy_enforcement_witness :
    set_pickup { solve_code := 4, has_scale := true, has_offset := false }
        { surfNum := 7, column := 2, solve_code := some 0 }
        { surface := 2, src_param := thicknessRef 2, offset := 4, scale := 3 } =
      .error .typeError ∧
    set_pickup { solve_code := 5, has_scale := true, has_offset := true }
        { surfNum := 7, column := 3, solve_code := some 1 }
        { surface := 2, src_param := thicknessRef 2, offset := 4, scale := 3 } ≠
      .error .typeError := by
  constructor
  · exact (set_pickup_policy_enforcement _ _ _).1.mpr
      (Or.inr (Or.inl ⟨rfl, by norm_num⟩))
  · intro h
    have := (set_pickup_policy_enforcement
      { solve_code := 5, has_scale := true, has_offset := true }
      { surfNum := 7, column := 3, solve_code := some 1 }
      { surface := 2, src_param := thicknessRef 2, offset := 4, scale := 3 }).1.mp h
    simp [thicknessRef] at this

/-! ## C10: assigning a pickup to a parameter without a pickup policy -/

/-- C10 (amended): for a `Parameter` without a pickup policy whose
class inherits `Parameter.set_value` (e.g. the coating, type and
thermal-expansivity fields), assigning a `PickupExpression` delegates
to `link_value_to`, i.e. `self.pickup_conf.set_pickup(…)`, whose
dereference of the absent policy raises `AttributeError` — not the
`TypeError` the pickup policy machinery documents — and, the exception
aborting `set_value` before `fix`/`SetSolve`/store, no host call is
issued.  The comment field, although also constructed with
`pickup_conf = None`, overrides `set_value`: assigning a
`PickupExpression` there never touches the policy; after the host
*reads* of `get_comment_and_tag()` it raises `TypeError` from
`len(value)` when the current comment embeds no tag, and
`AttributeError` (from `comment.rstrip()`, or from the failed regex
match) otherwise — in every case an error, so the
`_client_set_value` store is never reached. -/
theorem set_value_pickup_without_policy (p : Parameter) (e : PickupExpression) (n : Nat)
    (raw : String) (h : p.pickup_conf = none) :
    p.set_value (.pickup e) = .error .attributeError ∧
    PyErr.attributeError ≠ PyErr.typeError ∧
    (coatingParameter n).pickup_conf = none ∧
    (typeParameter n).pickup_conf = none ∧
    (thermalExpansivityParameter n).pickup_conf = none ∧
    (commentParameter n).pickup_conf = none ∧
    comment_set_value raw (.pickup e) =
      .error (match pyTagMatch raw with
              | none => PyErr.attributeError
              | some (_, t) =>
                if tagTruthy t then PyErr.attributeError else PyErr.typeError) ∧
    ∀ stored, comment_set_value raw (.pickup e) ≠ .ok stored := by
  have hchar : comment_set_value raw (.pickup e) =
      .error (match pyTagMatch raw with
              | none => PyErr.attributeError
              | some (_, t) =>
                if tagTruthy t then PyErr.attributeError else PyErr.typeError) := by
    rcases hm : pyTagMatch raw with _ | ⟨c, t⟩
    · simp [comment_set_value, hm]
    · by_cases ht : tagTruthy t = true <;> simp [comment_set_value, hm, ht]
  refine ⟨?_, by decide, rfl, rfl, rfl, rfl, hchar, ?_⟩
  · simp [Parameter.set_value, h]
  · intro stored hcontra
    rw [hchar] at hcontra
    exact Except.noConfusion hcontra

/-- Witness for C10: linking the coating field of surface 3 to another
surface's thickness raises `AttributeError`, while the same assignment
to the comment field (whose current host text `"OBJ"` embeds no tag)
raises `TypeError` from the override. -/
theorem set_value_pickup_without_policy_witness :
    (coatingParameter 3).set_value
        (.pickup (PickupExpression.linked 2 (thicknessRef 2))) =
      .error .attributeError ∧
    comment_set_value "OBJ" (.pickup (PickupExpression.linked 2 (thicknessRef 2))) =
      .error .typeError := by
  have h := set_value_pickup_without_policy (coatingParameter 3)
    (PickupExpression.linked 2 (thicknessRef 2)) 3 "OBJ" rfl
  refine ⟨h.1, ?_⟩
  rw [h.2.2.2.2.2.2.1]
  rfl

/-- Counterexample to C10 as stated: the comment field is constructed
with `pickup_conf = None`, yet assigning a `PickupExpression` to it
(current host text `"OBJ"`, which parses to no tag) raises `TypeError`
— `CommentParameter` overrides `set_value`, so the absent policy is
never dereferenced and no `AttributeError` arises here. -/
theorem comment_pickup_assignment_counterexample :
    (commentParameter 3).pickup_conf = none ∧
    pyTagMatch "OBJ" = some ("OBJ", none) ∧
    comment_set_value "OBJ" (.pickup (PickupExpression.linked 2 (thicknessRef 2))) =
      .error .typeError ∧
    PyErr.typeError ≠ PyErr.attributeError := by
  exact ⟨rfl, by decide, rfl, by decide⟩

/-! ## C2: comment/tag round trip -/

lemma takeWhile_ne_hash (td rest : List Char) (h : '#' ∉ td) :
    (td ++ '#' :: rest).takeWhile (fun c => c ≠ '#') = td := by
  induction td with
  | nil => simp
  | cons a t ih =>
    simp only [List.mem_cons, not_or] at h
    have ha : a ≠ '#' := fun hh => h.1 (hh ▸ rfl)
    have ih2 := ih h.2
    simp only [List.takeWhile_cons] at ih2 ⊢
    simp [ha]
    simpa using ih2

lemma rstripList_append_space (A : List Char) :
    rstripList (A ++ [' ']) = rstripList A := by
  simp [rstripList, List.reverse_append, List.dropWhile_cons, pyIsSpace]

lemma string_data_ne_nil (t : String) (ht : t ≠ "") : t.data ≠ [] := by
  intro h
  apply ht
  cases t
  simp only at h
  simp [h]

lemma pyTagMatch_encode (c t : String) (ht : t ≠ "") (hhash : '#' ∉ t.data)
    (hnl : '\n' ∉ c.data) (hws : rstripList c.data = c.data) :
    pyTagMatch (tag_format c t) = some (c, some t) := by
  have hdata : (tag_format c t).data = c.data ++ (' ' :: '#' :: (t.data ++ ['#'])) := by
    have h1 : (" #" : String).data = [' ', '#'] := rfl
    have h2 : ("#" : String).data = ['#'] := rfl
    simp [tag_format, String.data_append, h1, h2]
  have hrev : (tag_format c t).data.reverse =
      '#' :: (t.data.reverse ++ '#' :: ' ' :: c.data.reverse) := by
    rw [hdata]
    simp [List.reverse_append]
  have hxw : (t.data.reverse ++ '#' :: ' ' :: c.data.reverse).takeWhile
      (fun ch => ch ≠ '#') = t.data.reverse :=
    takeWhile_ne_hash _ _ (by simpa using hhash)
  have hne : t.data.reverse.isEmpty = false := by
    have := string_data_ne_nil t ht
    simp [List.isEmpty_iff, this]
  have htag : tryTag (tag_format c t).data = some (c.data ++ [' '], t.data) := by
    rw [tryTag, hrev]
    simp only [tryTagRev, hxw, hne, if_pos rfl, Bool.false_eq_true, if_false,
      List.drop_left]
    simp
  rw [pyTagMatch]
  simp only [htag]
  rw [rstripList_append_space, hws]
  rw [if_neg (by simpa using hnl)]

/-- C2 (amended): `set_comment_and_tag(c, t)` followed by
`get_comment_and_tag()` returns exactly `(c, t)` whenever the encoding
is at most 32 characters *and* the tag is nonempty without a `#` and
the comment is a single line with no trailing whitespace (otherwise the
reversible-format parse normalises the text: see the counterexample);
and whenever the encoding exceeds 32 characters, `ValueError` is raised
before the `_client_set_value` store, so no mutation reaches the host. -/
theorem comment_tag_roundtrip (c t : String)
    (hlen : (tag_format c t).length ≤ 32) (ht : t ≠ "") (hhash : '#' ∉ t.data)
    (hnl : '\n' ∉ c.data) (hws : pyRstrip c = c) :
    set_comment_and_tag c (some t) = .ok (tag_format c t) ∧
    get_comment_and_tag (tag_format c t) = some (c, some t) ∧
    ∀ c2 t2, 32 < (comment_tag_value c2 t2).length →
      set_comment_and_tag c2 t2 = .error .valueError := by
  have hval : comment_tag_value c (some t) = tag_format c t := by
    simp [comment_tag_value, ht, hws]
  have hws' : rstripList c.data = c.data := by
    have := congrArg String.data hws
    simpa [pyRstrip] using this
  refine ⟨?_, ?_, ?_⟩
  · rw [set_comment_and_tag, hval, if_neg (by omega)]
  · exact pyTagMatch_encode c t ht hhash hnl hws'
  · intro c2 t2 h2
    rw [set_comment_and_tag, if_pos h2]

/-- Witness for C2 at a concrete comment and tag. -/
theorem comment_tag_roundtrip_witness :
    set_comment_and_tag "front mirror" (some "m1") = .ok (tag_format "front mirror" "m1") ∧
    get_comment_and_tag (tag_format "front mirror" "m1") = some ("front mirror", some "m1") :=
  have h := comment_tag_roundtrip "front mirror" "m1" (by decide) (by decide) (by decide)
    (by decide) (by decide)
  ⟨h.1, h.2.1⟩

/-- Counterexample to C2 as stated: for the comment `"hi #y#"` with no
tag, the encoding is 6 ≤ 32 characters and the store succeeds, yet
reading back yields `("hi", "y")`, not `("hi #y#", None)` — the parse
cannot distinguish a tag-shaped comment from a tag. -/
theorem comment_tag_roundtrip_counterexample :
    set_comment_and_tag "hi #y#" none = .ok "hi #y#" ∧
    get_comment_and_tag "hi #y#" = some ("hi", some "y") ∧
    (("hi" : String), (some "y" : Option String)) ≠ ("hi #y#", none) := by
  exact ⟨rfl, by decide, by decide⟩

/-! ## C8: fix_variables -/

/-- C8 fails on the code: on a surface with an f/# solve (type 11) on
curvature and `k = 0` fields in variable mode, `fix_variables` returns
1 entry, not 0 — `vals[0]` is the first *character* of the raw
`GetSolve` response, so `int(vals[0])==1` also accepts solve type 11 —
and it destroys the f/# solve by setting that code to fixed.  (The
claim's second part does hold here: the immediate second call returns
0 entries.) -/
theorem fix_variables_miscounts_fnumber_solve :
    ((List.range 17).filter (fun i => fnumberSolveState i = 1)).length = 0 ∧
    firstDigit (fnumberSolveState 0) = 1 ∧
    (fix_variables fnumberSolveState).2 = [0] ∧
    (fix_variables fnumberSolveState).1 0 = 0 ∧
    (fix_variables (fix_variables fnumberSolveState).1).2 = [] := by
  refine ⟨by decide, by decide, by decide, by decide, by decide⟩

/-! ## C6: loading the surface-variant modules -/

/-- C6 fails on the code: `surface.py` (which defines the toroidal,
grating and retro-reflector variants) imports `FiniteSurface` from
`libzmx`, but `libzmx.py` defines no such name, so loading the module
raises `ImportError` and none of its variants is registered; only
`STANDARD`, `COORDBRK` (from `libzmx` itself) and `NONSEQCO` (from
`nscsurf`) appear in the code-string-to-variant table. -/
theorem surface_variant_modules_fail_to_load :
    "FiniteSurface" ∉ libzmx_module_names ∧
    load_surface_module = .error "ImportError: cannot import name FiniteSurface" ∧
    (surface_types_table.lookup "TOROIDAL").isNone = true ∧
    (surface_types_table.lookup "DGRATING").isNone = true ∧
    (surface_types_table.lookup "RETROREF").isNone = true ∧
    surface_types_table.lookup "STANDARD" = some "Standard" ∧
    surface_types_table.lookup "COORDBRK" = some "CoordinateBreak" ∧
    surface_types_table.lookup "NONSEQCO" = some "NonSequentialComponent" := by
  refine ⟨by decide, ?_, by decide, by decide, by decide, by decide, by decide, by decide⟩
  rfl

/-! ## C1: order of host calls in the creation protocol -/

/-- C1 fails on the code: `UnknownSurface.create` runs
`cls(*args, **kwargs)` — whose `__init__` performs every
caller-supplied field assignment — and only afterwards executes
`surf.type = cls.surface_type`, so the host call assigning the type
marker comes *after* the caller-supplied field stores, not before.
Concretely, for `insert_new(1, Toroidal, num_poly_terms=11)` the trace
is insert, set-label, the field's fix solve, the field store, and the
type-marker store last. -/
theorem create_sets_type_marker_after_kwargs :
    insert_new_trace 1 77 "TOROIDAL" [numPolyTermsKwarg] =
      [.insertSurface 1, .setLabel 1 77, .setSolve 1 (some 1001) [0],
       .store .extra 1 1 (.num 11), .store .data 1 0 (.str "TOROIDAL")] ∧
    typeStoreFirst (insert_new_trace 1 77 "TOROIDAL" [numPolyTermsKwarg])
        (isTypeMarkerStore 1 "TOROIDAL") (isKwargStore [numPolyTermsKwarg] 1) = false ∧
    (insert_new_trace 1 77 "TOROIDAL" [numPolyTermsKwarg]).getLast? =
      some (.store .data 1 0 (.str "TOROIDAL")) := by
  refine ⟨by decide, by decide, by decide⟩

/-! ## C5: return_to_coordinate_frame -/

lemma range'_snoc (s n : Nat) : List.range' s (n + 1) = List.range' s n ++ [s + n] := by
  induction n generalizing s with
  | zero => simp [List.range']
  | succ n ih =>
    rw [List.range'_succ, ih (s + 1), List.range'_succ]
    simp [Nat.add_assoc, Nat.add_comm 1 n]

lemma rtcfLoop_eq_flatMap (seq : Nat → SurfDesc) (inc : Bool) :
    ∀ (n sn1 : Nat), n ≤ sn1 + 1 →
      rtcfLoop seq inc sn1 n =
        ((List.range' (sn1 + 1 - n) n).reverse).flatMap
          (fun p => stepsForSurface (seq p) p inc) := by
  intro n
  induction n with
  | zero => intro sn1 _; simp [rtcfLoop]
  | succ n ih =>
    intro sn1 hn
    have hstep : rtcfLoop seq inc sn1 (n + 1) =
        stepsForSurface (seq sn1) sn1 inc ++ rtcfLoop seq inc (sn1 - 1) n := rfl
    have hb : sn1 + 1 - (n + 1) = sn1 - n := by omega
    have hsn : sn1 - n + n = sn1 := by omega
    have hrange : List.range' (sn1 + 1 - (n + 1)) (n + 1) =
        List.range' (sn1 - n) n ++ [sn1] := by
      rw [hb, range'_snoc, hsn]
    rw [hstep, hrange, ih (sn1 - 1) (by omega)]
    have hstart : sn1 - 1 + 1 - n = sn1 - n ∨ n = 0 := by omega
    rcases hstart with hstart | hstart
    · rw [hstart]
      simp [List.reverse_append]
    · subst hstart
      simp

lemma stepsForSurface_eq_described (s : SurfDesc) (p : Nat) (inc : Bool) :
    stepsForSurface s p inc = describedSteps s p inc := by
  simp [stepsForSurface, describedSteps, PickupExpression.neg, PickupExpression.linked,
    PickupExpression.copy]

/-- C5 (amended): with `first < last`, `return_to_coordinate_frame`
visits the positions `last` down to `first` in reverse order and emits,
for each coordinate-transform surface, an undo-thickness step when its
thickness is nonzero or null transforms are included, followed by an
undo-rotation/offset step — five negated pickup-links (scale −1,
offset 0) to the originals, rotate-before-offset flag inverted — when
any of the five components is nonzero or null transforms are included;
for each non-transform surface a single undo-thickness step when its
thickness is nonzero or null transforms are included; and it returns
the last surface it synthesized. -/
theorem return_to_coordinate_frame_described (seq : Nat → SurfDesc) (first last : Nat)
    (inc : Bool) (h : first < last) :
    (return_to_coordinate_frame seq first last inc).1 =
      undoChainDescribed seq first last inc ∧
    (return_to_coordinate_frame seq first last inc).2 =
      (undoChainDescribed seq first last inc).getLast? := by
  have hmain : (return_to_coordinate_frame seq first last inc).1 =
      undoChainDescribed seq first last inc := by
    show rtcfLoop seq inc last (last + 1 - first) = _
    rw [rtcfLoop_eq_flatMap seq inc (last + 1 - first) last (by omega)]
    have hfirst : last + 1 - (last + 1 - first) = first := by omega
    rw [hfirst, undoChainDescribed]
    simp only [stepsForSurface_eq_described]
  refine ⟨hmain, ?_⟩
  show (rtcfLoop seq inc last (last + 1 - first)).getLast? = _
  rw [show rtcfLoop seq inc last (last + 1 - first) =
      (return_to_coordinate_frame seq first last inc).1 from rfl, hmain]

/-- Witness for C5 on the concrete two-surface range with
`include_null_transforms = True`. -/
theorem return_to_coordinate_frame_described_witness :
    (return_to_coordinate_frame undoCexSeq 1 2 true).1 =
      undoChainDescribed undoCexSeq 1 2 true ∧
    (return_to_coordinate_frame undoCexSeq 1 2 true).2 =
      (undoChainDescribed undoCexSeq 1 2 true).getLast? :=
  return_to_coordinate_frame_described undoCexSeq 1 2 true (by norm_num)

/-- Counterexample to C5 as stated: on `undoCexSeq` with
`include_null_transforms = False`, position 2 is a coordinate break
(of nonzero thickness) yet no undo-rotation/offset step is emitted for
it (its five components are all zero), and position 1 is a non-transform
surface yet no undo-thickness step is emitted for it (its thickness is
zero): the whole output is one undo-thickness step. -/
theorem return_to_coordinate_frame_counterexample :
    (undoCexSeq 2).isCB = true ∧
    (undoCexSeq 1).isCB = false ∧
    (return_to_coordinate_frame undoCexSeq 1 2 false).1 =
      [{ thickness := some { surface := 2, src_param := thicknessRef 2,
                             offset := 0, scale := -1 },
         comment := "UNDO thickness 2" }] ∧
    ∀ st ∈ (return_to_coordinate_frame undoCexSeq 1 2 false).1, st.offset_x = none := by
  refine ⟨rfl, rfl, by decide, by decide⟩

end Libzmx
